import Mathlib

/-!
Shallow embedding of `src/sodium/driver.py` (class `Driver`): a device facade
that runs remote shell commands and scrapes typed values out of their raw
text output.  The shell executor (`adbutils` device `shell`) is modelled as a
function from a command string to either a `CmdFailure` (a raised transport /
timeout / status exception) or the raw output string.  Python runtime errors
that the driver itself can raise (`AttributeError` from calling `.group` on a
failed `re.search`, `ValueError` from `int()` on a non-numeric string) are
modelled as explicit error values of type `PyError`.
-/

namespace Sodium

/-- An exception raised by the adb shell collaborator (transport error,
timeout, or surfaced non-zero status). -/
structure CmdFailure where
  msg : String
deriving DecidableEq, Repr

/-- Errors a `Driver` accessor can propagate to its caller: a re-raised
`CmdFailure` from the executor, the `AttributeError` Python raises when
`.group` is called on the `None` returned by a failed `re.search`, and the
`ValueError` raised by `int()` on a non-numeric string. -/
inductive PyError where
  | cmdFailure (e : CmdFailure)
  | attributeError
  | valueError
deriving DecidableEq, Repr

/-- The shell executor boundary: `Driver.shell` delegates to
`self._adb.shell(cmdargs, timeout=timeout)`, returning raw text or raising. -/
def Exec : Type := String → Except CmdFailure String

/-- An executor that returns the same raw output for every command. -/
def execOf (out : String) : Exec := fun _ => Except.ok out

/-! ### Python `or` fallback chains (`get_brand`, `get_locale`, `get_device_model`)

`self.shell(c1) or self.shell(c2)` evaluates `shell(c1)` first; a raised
exception propagates at once (the second command never runs); a non-empty
string (truthy) is returned without running the second command; an empty
string (falsy) makes Python evaluate and return `shell(c2)` whatever it is.
Each accessor's result is paired with the trace of commands executed, in
order. -/

/-- `exec c1 or exec c2`, with the executed-command trace. -/
def orChain (exec : Exec) (c1 c2 : String) :
    Except PyError String × List String :=
  match exec c1 with
  | Except.error e => (Except.error (PyError.cmdFailure e), [c1])
  | Except.ok s1 =>
    if s1 = "" then
      match exec c2 with
      | Except.error e => (Except.error (PyError.cmdFailure e), [c1, c2])
      | Except.ok s2 => (Except.ok s2, [c1, c2])
    else (Except.ok s1, [c1])

/-- `Driver.get_brand`:
`self.shell("getprop persist.sys.romtype") or self.shell("getprop ro.product.manufacturer")`. -/
def get_brand (exec : Exec) : Except PyError String × List String :=
  orChain exec "getprop persist.sys.romtype" "getprop ro.product.manufacturer"

/-- `Driver.get_locale`:
`self.shell("getprop persist.sys.locale") or self.shell("getprop ro.product.locale")`. -/
def get_locale (exec : Exec) : Except PyError String × List String :=
  orChain exec "getprop persist.sys.locale" "getprop ro.product.locale"

/-- `Driver.get_device_model`:
`self.shell("getprop persist.sys.device") or self.shell("getprop ro.product.model")`. -/
def get_device_model (exec : Exec) : Except PyError String × List String :=
  orChain exec "getprop persist.sys.device" "getprop ro.product.model"

/-! ### Python `int(str)` coercion

`int(s)` strips surrounding whitespace, allows one optional sign, then a
non-empty run of decimal digits where single underscores may separate two
digits.  Anything else raises `ValueError`; we model it as `Option Int`. -/

/-- Characters Python's `int()` strips off both ends of its argument. -/
def isPySpace (c : Char) : Bool :=
  c == ' ' || c == '\t' || c == '\n' || c == '\r' || c == '\x0b' || c == '\x0c'

/-- Digit run of `int()`: digits, with single underscores allowed between two
digits.  The caller guarantees the list starts with a digit. -/
def pyIntDigitsAux : List Char → Nat → Option Nat
  | [], acc => some acc
  | c :: rest, acc =>
    if c == '_' then
      match rest with
      | d :: _ => if d.isDigit then pyIntDigitsAux rest acc else none
      | [] => none
    else if c.isDigit then pyIntDigitsAux rest (10 * acc + (c.toNat - 48))
    else none

/-- A non-empty digit run (underscore-separated) starting at the head. -/
def pyIntDigitsStart : List Char → Option Nat
  | [] => none
  | c :: rest => if c.isDigit then pyIntDigitsAux (c :: rest) 0 else none

/-- Sign handling of `int()` after stripping whitespace. -/
def pyIntCore : List Char → Option Int
  | [] => none
  | c :: rest =>
    if c == '+' then (pyIntDigitsStart rest).map Int.ofNat
    else if c == '-' then (pyIntDigitsStart rest).map (fun n => -(Int.ofNat n))
    else (pyIntDigitsStart (c :: rest)).map Int.ofNat

/-- Strip `isPySpace` characters from both ends. -/
def trimPy (l : List Char) : List Char :=
  ((l.dropWhile isPySpace).reverse.dropWhile isPySpace).reverse

/-- Python `int(s)`: `some n` on success, `none` when `int()` raises
`ValueError`. -/
def pyInt (s : String) : Option Int := pyIntCore (trimPy s.data)

/-! ### `re.search` and the driver's patterns

`re.search(pat, text)` returns the leftmost match, or `None`.  We model each
concrete pattern of the driver as a matcher `List Char → Option γ` that
tries to match at the head of its argument and returns the relevant capture
group; `reSearch` scans positions left to right (including the empty suffix,
as `re.search` does). -/

/-- Leftmost-match search: try the matcher at every suffix, leftmost first. -/
def reSearch {γ : Type} (m : List Char → Option γ) : List Char → Option γ
  | [] => m []
  | c :: cs =>
    match m (c :: cs) with
    | some r => some r
    | none => reSearch m cs

/-- `startsWithList pat l`: `pat` is a prefix of `l`. -/
def startsWithList : List Char → List Char → Bool
  | [], _ => true
  | _ :: _, [] => false
  | p :: ps, c :: cs => p == c && startsWithList ps cs

/-- `hasSub pat l`: `pat` occurs as a contiguous subsequence of `l`. -/
def hasSub (pat : List Char) : List Char → Bool
  | [] => startsWithList pat []
  | c :: cs => startsWithList pat (c :: cs) || hasSub pat cs

/-- Pattern `mInputShown=(true|false)` at the current position; capture
group 1 is `true` or `false`. -/
def matchImeAt (cs : List Char) : Option String :=
  if startsWithList "mInputShown=true".data cs then some "true"
  else if startsWithList "mInputShown=false".data cs then some "false"
  else none

/-- `([0-9]+)` with nothing after it: a non-empty maximal digit run at the
head of `rest`, returned as the capture. -/
def digitCapture (rest : List Char) : Option String :=
  if (rest.takeWhile Char.isDigit).isEmpty then none
  else some (String.mk (rest.takeWhile Char.isDigit))

/-- `([0-9]+)\n`: a non-empty maximal digit run at the head of `rest`
followed by a newline (greedy `[0-9]+` backtracking cannot help, since a
shortened run leaves a digit where `\n` is required). -/
def digitCaptureNl (rest : List Char) : Option String :=
  if (rest.takeWhile Char.isDigit).isEmpty then none
  else if startsWithList ['\n'] (rest.drop (rest.takeWhile Char.isDigit).length) then
    some (String.mk (rest.takeWhile Char.isDigit))
  else none

/-- Pattern `mScreenOffTimeoutSetting=([0-9]+)` at the current position;
capture group 1 is the maximal digit run after the `=`. -/
def matchTimeoutAt (cs : List Char) : Option String :=
  if startsWithList "mScreenOffTimeoutSetting=".data cs then
    digitCapture (cs.drop "mScreenOffTimeoutSetting=".length)
  else none

/-- Pattern `Max: ([0-9]+)\n` at the current position. -/
def matchMaxAt (cs : List Char) : Option String :=
  if startsWithList "Max: ".data cs then
    digitCaptureNl (cs.drop "Max: ".length)
  else none

/-- Pattern `name: (.+)\n` at the current position: literal `name: `, a
non-empty maximal run of non-newline characters (`.` does not match `\n`),
then a newline. -/
def matchBtNameAt (cs : List Char) : Option String :=
  if startsWithList "name: ".data cs then
    let rest := cs.drop "name: ".length
    let run := rest.takeWhile (fun c => !(c == '\n'))
    if run.isEmpty then none
    else if startsWithList ['\n'] (rest.drop run.length) then some (String.mk run)
    else none
  else none

/-- The double-quote character, `"`. -/
def quoteChar : Char := Char.ofNat 34

/-- Scan for the closing quote of `(.+?)"`: stop at the first `"`, fail at a
newline (`.` does not match `\n`) or at the end of input.  `acc` holds the
reversed content seen so far. -/
def ssidFindQuote : List Char → List Char → Option (List Char)
  | [], _ => none
  | c :: cs, acc =>
    if c == quoteChar then some acc.reverse
    else if c == '\n' then none
    else ssidFindQuote cs (c :: acc)

/-- One alternative of `(networkId|wifiNetworkKey)="(.+?)"` at the current
position: the key, `="`, then the non-greedy group 2 ending at the first
subsequent `"` (the first content character may itself be a `"`, since the
minimal `.+?` expansion has length one). -/
def matchSsidKeyAt (key : List Char) (cs : List Char) : Option (List Char) :=
  if startsWithList key cs then
    match cs.drop key.length with
    | '=' :: q :: c0 :: rest =>
      if q == quoteChar then
        if c0 == '\n' then none else ssidFindQuote rest [c0]
      else none
    | _ => none
  else none

/-- Pattern `(networkId|wifiNetworkKey)="(.+?)"` at the current position,
returning capture group 2. -/
def matchSsidAt (cs : List Char) : Option (List Char) :=
  match matchSsidKeyAt "networkId".data cs with
  | some r => some r
  | none => matchSsidKeyAt "wifiNetworkKey".data cs

/-! ### Single-command accessors -/

/-- `Driver.bluetooth_on`:
`status = int(self.shell("settings get global bluetooth_on")); return status == 1`. -/
def bluetooth_on (exec : Exec) : Except PyError Bool :=
  match exec "settings get global bluetooth_on" with
  | Except.error e => Except.error (PyError.cmdFailure e)
  | Except.ok out =>
    match pyInt out with
    | none => Except.error PyError.valueError
    | some n => Except.ok (n == 1)

/-- `Driver.is_ime_active`:
`re.search("mInputShown=(true|false)", self.shell("dumpsys input_method | grep mInputShown")).group(1) == "true"`;
a failed search returns `None` and `.group(1)` raises `AttributeError`. -/
def is_ime_active (exec : Exec) : Except PyError Bool :=
  match exec "dumpsys input_method | grep mInputShown" with
  | Except.error e => Except.error (PyError.cmdFailure e)
  | Except.ok out =>
    match reSearch matchImeAt out.data with
    | none => Except.error PyError.attributeError
    | some g => Except.ok (g == "true")

/-- `Driver.get_system_version`:
`int(self.shell("getprop ro.build.version.release"))`. -/
def get_system_version (exec : Exec) : Except PyError Int :=
  match exec "getprop ro.build.version.release" with
  | Except.error e => Except.error (PyError.cmdFailure e)
  | Except.ok out =>
    match pyInt out with
    | none => Except.error PyError.valueError
    | some n => Except.ok n

/-- `Driver.get_screen_timeout`:
`int(re.search("mScreenOffTimeoutSetting=([0-9]+)", self.shell("dumpsys power | grep  mScreenOffTimeoutSetting")).group(1))`. -/
def get_screen_timeout (exec : Exec) : Except PyError Int :=
  match exec "dumpsys power | grep  mScreenOffTimeoutSetting" with
  | Except.error e => Except.error (PyError.cmdFailure e)
  | Except.ok out =>
    match reSearch matchTimeoutAt out.data with
    | none => Except.error PyError.attributeError
    | some g =>
      match pyInt g with
      | none => Except.error PyError.valueError
      | some n => Except.ok n

/-- `Driver.get_max_volume_level`:
`int(re.search("Max: ([0-9]+)\n", self.shell('dumpsys audio | grep -A 5 "STREAM_MUSIC"')).group(1))`. -/
def get_max_volume_level (exec : Exec) : Except PyError Int :=
  match exec "dumpsys audio | grep -A 5 \"STREAM_MUSIC\"" with
  | Except.error e => Except.error (PyError.cmdFailure e)
  | Except.ok out =>
    match reSearch matchMaxAt out.data with
    | none => Except.error PyError.attributeError
    | some g =>
      match pyInt g with
      | none => Except.error PyError.valueError
      | some n => Except.ok n

/-- `Driver.get_bluetooth_name`:
`re.search(re.compile("name: (.+)\n"), self.shell("dumpsys bluetooth_manager")).group(1)`. -/
def get_bluetooth_name (exec : Exec) : Except PyError String :=
  match exec "dumpsys bluetooth_manager" with
  | Except.error e => Except.error (PyError.cmdFailure e)
  | Except.ok out =>
    match reSearch matchBtNameAt out.data with
    | none => Except.error PyError.attributeError
    | some g => Except.ok g

/-- `Driver.get_current_ssid`: walrus-tested
`re.search(re.compile('(networkId|wifiNetworkKey)="(.+?)"'), self.shell('dumpsys netstats | grep -E "iface=wlan"'))`;
returns `None` when the search fails, else `m.group(2)`. -/
def get_current_ssid (exec : Exec) : Except PyError (Option String) :=
  match exec "dumpsys netstats | grep -E \"iface=wlan\"" with
  | Except.error e => Except.error (PyError.cmdFailure e)
  | Except.ok out =>
    match reSearch matchSsidAt out.data with
    | none => Except.ok none
    | some g => Except.ok (some (String.mk g))

/-! ### `get_window_size` and its adb collaborator -/

/-- `adbutils.WindowSize`. -/
structure WindowSize where
  width : Nat
  height : Nat
deriving DecidableEq, Repr

/-- The adb collaborator surface that `Driver.get_window_size` consumes:
`rotation()`, the private `_raw_window_size()` and the rotation-adjusted
`window_size()`. -/
structure AdbDevice where
  rotation : Nat
  raw_window_size : WindowSize
  window_size : WindowSize

/-- The `Driver` state: the shell executor boundary plus the adb
collaborator object. -/
structure Driver where
  exec : Exec
  adb : AdbDevice

/-- `Driver.get_window_size`:
`if self._adb.rotation() == 0: return self._adb.__getattribute__("_raw_window_size")(); return self._adb.window_size()`. -/
def get_window_size (d : Driver) : WindowSize :=
  if d.adb.rotation = 0 then d.adb.raw_window_size else d.adb.window_size

end Sodium

deriving instance DecidableEq for Except

namespace Sodium

/-! ### Helper lemmas: characters and Python `int()` -/

/-- A digit is `BEq`-distinct from any non-digit character. -/
lemma char_beq_false_of_isDigit (c d : Char) (h : c.isDigit = true)
    (hd : d.isDigit = false) : (c == d) = false := by
  by_cases he : c = d
  · subst he; rw [h] at hd; exact Bool.noConfusion hd
  · exact beq_eq_false_iff_ne.mpr he

/-- Digits are not whitespace in Python's `int()` sense. -/
lemma isPySpace_false_of_isDigit (c : Char) (h : c.isDigit = true) :
    isPySpace c = false := by
  unfold isPySpace
  rw [char_beq_false_of_isDigit c ' ' h (by decide),
    char_beq_false_of_isDigit c '\t' h (by decide),
    char_beq_false_of_isDigit c '\n' h (by decide),
    char_beq_false_of_isDigit c '\r' h (by decide),
    char_beq_false_of_isDigit c '\x0b' h (by decide),
    char_beq_false_of_isDigit c '\x0c' h (by decide)]
  rfl

/-- `dropWhile` is the identity on a list none of whose elements satisfy the
predicate. -/
lemma dropWhile_eq_self (p : Char → Bool) (l : List Char)
    (h : ∀ c ∈ l, p c = false) : List.dropWhile p l = l := by
  cases l with
  | nil => rfl
  | cons c cs => simp [List.dropWhile_cons, h c (List.mem_cons_self c cs)]

/-- Stripping whitespace from an all-digit list changes nothing. -/
lemma trimPy_eq_self (l : List Char) (h : ∀ c ∈ l, isPySpace c = false) :
    trimPy l = l := by
  unfold trimPy
  rw [dropWhile_eq_self _ l h,
    dropWhile_eq_self _ l.reverse (fun c hc => h c (List.mem_reverse.mp hc))]
  exact List.reverse_reverse l

/-- The digit-run loop of `int()` succeeds on any all-digit list. -/
lemma pyIntDigitsAux_digits (l : List Char) : ∀ acc : Nat,
    (∀ c ∈ l, c.isDigit = true) → ∃ n, pyIntDigitsAux l acc = some n := by
  induction l with
  | nil => exact fun acc _ => ⟨acc, rfl⟩
  | cons c rest ih =>
    intro acc h
    have hc : c.isDigit = true := h c (List.mem_cons_self c rest)
    have hu : (c == '_') = false := char_beq_false_of_isDigit c '_' hc (by decide)
    simp only [pyIntDigitsAux, hu, hc, Bool.false_eq_true, if_false, if_true]
    exact ih _ (fun d hd => h d (List.mem_cons_of_mem c hd))

/-- Python `int()` succeeds on any non-empty all-digit string, returning a
non-negative value. -/
lemma pyInt_digit_run (ds : List Char) (h0 : ds ≠ [])
    (hd : ∀ c ∈ ds, c.isDigit = true) :
    ∃ n : Nat, pyInt (String.mk ds) = some (Int.ofNat n) := by
  unfold pyInt
  have hdata : (String.mk ds).data = ds := rfl
  rw [hdata, trimPy_eq_self ds (fun c hc => isPySpace_false_of_isDigit c (hd c hc))]
  cases ds with
  | nil => exact absurd rfl h0
  | cons c rest =>
    have hc : c.isDigit = true := hd c (List.mem_cons_self c rest)
    have hp : (c == '+') = false := char_beq_false_of_isDigit c '+' hc (by decide)
    have hm : (c == '-') = false := char_beq_false_of_isDigit c '-' hc (by decide)
    simp only [pyIntCore, hp, hm, Bool.false_eq_true, if_false]
    simp only [pyIntDigitsStart, hc, if_true]
    obtain ⟨n, hn⟩ := pyIntDigitsAux_digits (c :: rest) 0 hd
    exact ⟨n, by rw [hn]; rfl⟩

/-! ### Helper lemmas: leftmost search -/

/-- A prefix of a prefix: matching `p ++ q` at the head also matches `p`. -/
lemma startsWithList_append (p q cs : List Char)
    (h : startsWithList (p ++ q) cs = true) : startsWithList p cs = true := by
  induction p generalizing cs with
  | nil => rfl
  | cons a ps ih =>
    cases cs with
    | nil => exact Bool.noConfusion h
    | cons c cs' =>
      simp only [List.cons_append, startsWithList, Bool.and_eq_true] at h ⊢
      exact ⟨h.1, ih cs' h.2⟩

/-- A successful leftmost search means the matcher fired at some suffix. -/
lemma reSearch_some_drop {γ : Type} (m : List Char → Option γ) (l : List Char)
    (r : γ) (h : reSearch m l = some r) : ∃ i, m (l.drop i) = some r := by
  induction l with
  | nil => exact ⟨0, h⟩
  | cons c cs ih =>
    unfold reSearch at h
    cases hm : m (c :: cs) with
    | some r2 =>
      simp only [hm] at h
      exact ⟨0, hm.trans (congrArg some (Option.some.inj h))⟩
    | none =>
      simp only [hm] at h
      obtain ⟨i, hi⟩ := ih h
      exact ⟨i + 1, hi⟩

/-- If a literal is a prefix of some suffix of `l`, it occurs in `l`. -/
lemma hasSub_of_startsWith_drop (lit l : List Char) (i : Nat)
    (h : startsWithList lit (l.drop i) = true) : hasSub lit l = true := by
  induction l generalizing i with
  | nil => rw [List.drop_nil] at h; exact h
  | cons c cs ih =>
    cases i with
    | zero =>
      simp only [hasSub, Bool.or_eq_true]
      exact Or.inl h
    | succ j =>
      simp only [hasSub, Bool.or_eq_true]
      exact Or.inr (ih j h)

/-- When every successful match starts with the literal `lit`, a text with no
occurrence of `lit` makes the whole search fail. -/
lemma reSearch_none_of_no_lit {γ : Type} (m : List Char → Option γ)
    (lit : List Char) (H : ∀ cs r, m cs = some r → startsWithList lit cs = true)
    (l : List Char) (h : hasSub lit l = false) : reSearch m l = none := by
  cases hr : reSearch m l with
  | none => rfl
  | some r =>
    obtain ⟨i, hi⟩ := reSearch_some_drop m l r hr
    have ht := hasSub_of_startsWith_drop lit l i (H _ r hi)
    rw [h] at ht
    exact Bool.noConfusion ht

/-- Two-literal variant of `reSearch_none_of_no_lit`, for the alternation
pattern of `get_current_ssid`. -/
lemma reSearch_none_of_no_lit_pair {γ : Type} (m : List Char → Option γ)
    (l1 l2 : List Char)
    (H : ∀ cs r, m cs = some r →
      startsWithList l1 cs = true ∨ startsWithList l2 cs = true)
    (l : List Char) (h1 : hasSub l1 l = false) (h2 : hasSub l2 l = false) :
    reSearch m l = none := by
  cases hr : reSearch m l with
  | none => rfl
  | some r =>
    obtain ⟨i, hi⟩ := reSearch_some_drop m l r hr
    cases H _ r hi with
    | inl hs =>
      have ht := hasSub_of_startsWith_drop l1 l i hs
      rw [h1] at ht
      exact Bool.noConfusion ht
    | inr hs =>
      have ht := hasSub_of_startsWith_drop l2 l i hs
      rw [h2] at ht
      exact Bool.noConfusion ht

/-! ### Helper lemmas: the driver's concrete patterns -/

/-- A successful `mInputShown=(true|false)` match starts with the literal
`mInputShown=`. -/
lemma matchImeAt_startsWith (cs : List Char) (r : String)
    (h : matchImeAt cs = some r) :
    startsWithList "mInputShown=".data cs = true := by
  unfold matchImeAt at h
  split at h
  · next h1 => exact startsWithList_append "mInputShown=".data "true".data cs h1
  · split at h
    · next h2 => exact startsWithList_append "mInputShown=".data "false".data cs h2
    · exact Option.noConfusion h

/-- A successful `mScreenOffTimeoutSetting=([0-9]+)` match starts with its
literal. -/
lemma matchTimeoutAt_startsWith (cs : List Char) (r : String)
    (h : matchTimeoutAt cs = some r) :
    startsWithList "mScreenOffTimeoutSetting=".data cs = true := by
  unfold matchTimeoutAt at h
  split at h
  · next h1 => exact h1
  · exact Option.noConfusion h

/-- A successful `Max: ([0-9]+)\n` match starts with the literal `Max:`. -/
lemma matchMaxAt_startsWith (cs : List Char) (r : String)
    (h : matchMaxAt cs = some r) : startsWithList "Max:".data cs = true := by
  unfold matchMaxAt at h
  split at h
  · next h1 => exact startsWithList_append "Max:".data [' '] cs h1
  · exact Option.noConfusion h

/-- A successful `name: (.+)\n` match starts with the literal `name: `. -/
lemma matchBtNameAt_startsWith (cs : List Char) (r : String)
    (h : matchBtNameAt cs = some r) :
    startsWithList "name: ".data cs = true := by
  unfold matchBtNameAt at h
  split at h
  · next h1 => exact h1
  · exact Option.noConfusion h

/-- A successful single-key SSID match starts with its key. -/
lemma matchSsidKeyAt_startsWith (key cs : List Char) (r : List Char)
    (h : matchSsidKeyAt key cs = some r) : startsWithList key cs = true := by
  unfold matchSsidKeyAt at h
  split at h
  · next h1 => exact h1
  · exact Option.noConfusion h

/-- A successful `(networkId|wifiNetworkKey)="(.+?)"` match starts with one
of the two keys. -/
lemma matchSsidAt_startsWith (cs : List Char) (r : List Char)
    (h : matchSsidAt cs = some r) :
    startsWithList "networkId".data cs = true ∨
      startsWithList "wifiNetworkKey".data cs = true := by
  unfold matchSsidAt at h
  cases hk : matchSsidKeyAt "networkId".data cs with
  | some r2 => exact Or.inl (matchSsidKeyAt_startsWith _ _ _ hk)
  | none =>
    simp only [hk] at h
    exact Or.inr (matchSsidKeyAt_startsWith _ _ _ h)

/-- What a `([0-9]+)` capture looks like: a non-empty all-digit string. -/
lemma digitCapture_some (rest : List Char) (g : String)
    (h : digitCapture rest = some g) :
    ∃ ds : List Char, g = String.mk ds ∧ ds ≠ [] ∧ ∀ c ∈ ds, c.isDigit = true := by
  unfold digitCapture at h
  split at h
  · exact Option.noConfusion h
  · next hne =>
    refine ⟨rest.takeWhile Char.isDigit, (Option.some.inj h).symm, ?_, ?_⟩
    · intro hemp
      exact hne (by rw [hemp]; rfl)
    · exact fun c hc => List.mem_takeWhile_imp hc

/-- What a `([0-9]+)\n` capture looks like: a non-empty all-digit string. -/
lemma digitCaptureNl_some (rest : List Char) (g : String)
    (h : digitCaptureNl rest = some g) :
    ∃ ds : List Char, g = String.mk ds ∧ ds ≠ [] ∧ ∀ c ∈ ds, c.isDigit = true := by
  unfold digitCaptureNl at h
  split at h
  · exact Option.noConfusion h
  · next hne =>
    split at h
    · refine ⟨rest.takeWhile Char.isDigit, (Option.some.inj h).symm, ?_, ?_⟩
      · intro hemp
        exact hne (by rw [hemp]; rfl)
      · exact fun c hc => List.mem_takeWhile_imp hc
    · exact Option.noConfusion h

/-- The capture of a successful `mScreenOffTimeoutSetting=([0-9]+)` match is
a non-empty all-digit string. -/
lemma matchTimeoutAt_capture (cs : List Char) (g : String)
    (h : matchTimeoutAt cs = some g) :
    ∃ ds : List Char, g = String.mk ds ∧ ds ≠ [] ∧ ∀ c ∈ ds, c.isDigit = true := by
  unfold matchTimeoutAt at h
  split at h
  · exact digitCapture_some _ _ h
  · exact Option.noConfusion h

/-- The capture of a successful `Max: ([0-9]+)\n` match is a non-empty
all-digit string. -/
lemma matchMaxAt_capture (cs : List Char) (g : String)
    (h : matchMaxAt cs = some g) :
    ∃ ds : List Char, g = String.mk ds ∧ ds ≠ [] ∧ ∀ c ∈ ds, c.isDigit = true := by
  unfold matchMaxAt at h
  split at h
  · exact digitCaptureNl_some _ _ h
  · exact Option.noConfusion h

/-! ### Witness executors -/

/-- An executor whose vendor-specific first commands print nothing and whose
generic fallback commands print `X`. -/
def fallbackExec : Exec := fun c =>
  if c = "getprop ro.product.manufacturer" ∨ c = "getprop ro.product.locale" ∨
      c = "getprop ro.product.model" then Except.ok "X"
  else Except.ok ""

/-- An executor on which every command raises a `CmdFailure`. -/
def failAllExec : Exec := fun _ => Except.error ⟨"device unreachable"⟩

/-- An executor on which exactly the first `get_brand` command raises a
`CmdFailure` and every other command prints `OK`. -/
def brandCmdFailExec : Exec := fun c =>
  if c = "getprop persist.sys.romtype" then Except.error ⟨"device unreachable"⟩
  else Except.ok "OK"

/-! ### Claims -/

/-- Claim C1: for an executor returning the empty string for the
vendor-specific first command and a non-empty `v` for the generic fallback
command, `get_brand`, `get_locale` and `get_device_model` each return `v`,
executing each of their two commands exactly once. -/
theorem claim_C1_fallback_ordering (exec : Exec) (v : String) (hv : v ≠ "")
    (hb1 : exec "getprop persist.sys.romtype" = Except.ok "")
    (hb2 : exec "getprop ro.product.manufacturer" = Except.ok v)
    (hl1 : exec "getprop persist.sys.locale" = Except.ok "")
    (hl2 : exec "getprop ro.product.locale" = Except.ok v)
    (hm1 : exec "getprop persist.sys.device" = Except.ok "")
    (hm2 : exec "getprop ro.product.model" = Except.ok v) :
    (get_brand exec = (Except.ok v,
        ["getprop persist.sys.romtype", "getprop ro.product.manufacturer"]) ∧
      (get_brand exec).2.count "getprop persist.sys.romtype" = 1 ∧
      (get_brand exec).2.count "getprop ro.product.manufacturer" = 1) ∧
    (get_locale exec = (Except.ok v,
        ["getprop persist.sys.locale", "getprop ro.product.locale"]) ∧
      (get_locale exec).2.count "getprop persist.sys.locale" = 1 ∧
      (get_locale exec).2.count "getprop ro.product.locale" = 1) ∧
    (get_device_model exec = (Except.ok v,
        ["getprop persist.sys.device", "getprop ro.product.model"]) ∧
      (get_device_model exec).2.count "getprop persist.sys.device" = 1 ∧
      (get_device_model exec).2.count "getprop ro.product.model" = 1) := by
  have hb : get_brand exec = (Except.ok v,
      ["getprop persist.sys.romtype", "getprop ro.product.manufacturer"]) := by
    unfold get_brand orChain
    rw [hb1]
    simp [hb2]
  have hl : get_locale exec = (Except.ok v,
      ["getprop persist.sys.locale", "getprop ro.product.locale"]) := by
    unfold get_locale orChain
    rw [hl1]
    simp [hl2]
  have hm : get_device_model exec = (Except.ok v,
      ["getprop persist.sys.device", "getprop ro.product.model"]) := by
    unfold get_device_model orChain
    rw [hm1]
    simp [hm2]
  rw [hb, hl, hm]
  exact ⟨⟨rfl, rfl, rfl⟩, ⟨rfl, rfl, rfl⟩, ⟨rfl, rfl, rfl⟩⟩

/-- Claim C1 witness: `fallbackExec` realises the hypotheses with `v = "X"`. -/
theorem claim_C1_witness :
    (get_brand fallbackExec = (Except.ok "X",
        ["getprop persist.sys.romtype", "getprop ro.product.manufacturer"]) ∧
      (get_brand fallbackExec).2.count "getprop persist.sys.romtype" = 1 ∧
      (get_brand fallbackExec).2.count "getprop ro.product.manufacturer" = 1) ∧
    (get_locale fallbackExec = (Except.ok "X",
        ["getprop persist.sys.locale", "getprop ro.product.locale"]) ∧
      (get_locale fallbackExec).2.count "getprop persist.sys.locale" = 1 ∧
      (get_locale fallbackExec).2.count "getprop ro.product.locale" = 1) ∧
    (get_device_model fallbackExec = (Except.ok "X",
        ["getprop persist.sys.device", "getprop ro.product.model"]) ∧
      (get_device_model fallbackExec).2.count "getprop persist.sys.device" = 1 ∧
      (get_device_model fallbackExec).2.count "getprop ro.product.model" = 1) :=
  claim_C1_fallback_ordering fallbackExec "X" (by decide) (by decide) (by decide)
    (by decide) (by decide) (by decide) (by decide)

/-- Claim C2: for an executor returning a non-empty `v1` for the first
command, `get_brand`, `get_locale` and `get_device_model` each return `v1`
and never execute their second command (so the result cannot depend on it). -/
theorem claim_C2_first_success (exec : Exec) (v1 : String) (hv : v1 ≠ "")
    (hb : exec "getprop persist.sys.romtype" = Except.ok v1)
    (hl : exec "getprop persist.sys.locale" = Except.ok v1)
    (hm : exec "getprop persist.sys.device" = Except.ok v1) :
    (get_brand exec = (Except.ok v1, ["getprop persist.sys.romtype"]) ∧
      "getprop ro.product.manufacturer" ∉ (get_brand exec).2) ∧
    (get_locale exec = (Except.ok v1, ["getprop persist.sys.locale"]) ∧
      "getprop ro.product.locale" ∉ (get_locale exec).2) ∧
    (get_device_model exec = (Except.ok v1, ["getprop persist.sys.device"]) ∧
      "getprop ro.product.model" ∉ (get_device_model exec).2) := by
  have hb' : get_brand exec = (Except.ok v1, ["getprop persist.sys.romtype"]) := by
    unfold get_brand orChain
    rw [hb]
    simp [hv]
  have hl' : get_locale exec = (Except.ok v1, ["getprop persist.sys.locale"]) := by
    unfold get_locale orChain
    rw [hl]
    simp [hv]
  have hm' : get_device_model exec =
      (Except.ok v1, ["getprop persist.sys.device"]) := by
    unfold get_device_model orChain
    rw [hm]
    simp [hv]
  rw [hb', hl', hm']
  exact ⟨⟨rfl,
      (by decide : "getprop ro.product.manufacturer" ∉ ["getprop persist.sys.romtype"])⟩,
    ⟨rfl, (by decide : "getprop ro.product.locale" ∉ ["getprop persist.sys.locale"])⟩,
    ⟨rfl, (by decide : "getprop ro.product.model" ∉ ["getprop persist.sys.device"])⟩⟩

/-- Claim C2 witness: the constant executor printing `X` realises the
hypotheses. -/
theorem claim_C2_witness :
    (get_brand (execOf "X") = (Except.ok "X", ["getprop persist.sys.romtype"]) ∧
      "getprop ro.product.manufacturer" ∉ (get_brand (execOf "X")).2) ∧
    (get_locale (execOf "X") = (Except.ok "X", ["getprop persist.sys.locale"]) ∧
      "getprop ro.product.locale" ∉ (get_locale (execOf "X")).2) ∧
    (get_device_model (execOf "X") =
        (Except.ok "X", ["getprop persist.sys.device"]) ∧
      "getprop ro.product.model" ∉ (get_device_model (execOf "X")).2) :=
  claim_C2_first_success (execOf "X") "X" (by decide) (by decide) (by decide)
    (by decide)

/-- Claim C4 counterexample: when the first `get_brand` command raises a
`CmdFailure`, the failure propagates at once — the accessor does not return
the second command's output `OK`, and the second command is never executed. -/
theorem claim_C4_counterexample :
    get_brand brandCmdFailExec =
      (Except.error (PyError.cmdFailure ⟨"device unreachable"⟩),
        ["getprop persist.sys.romtype"]) ∧
    (get_brand brandCmdFailExec).1 ≠ Except.ok "OK" ∧
    "getprop ro.product.manufacturer" ∉ (get_brand brandCmdFailExec).2 := by
  decide

/-- Claim C4 amended: a `CommandFailure` raised by the first command of
`get_brand`, `get_locale` or `get_device_model` propagates to the caller
unchanged; the second command is not tried — fallback happens only on an
empty-string first result. -/
theorem claim_C4_amended (exec : Exec) (f : CmdFailure)
    (hb : exec "getprop persist.sys.romtype" = Except.error f)
    (hl : exec "getprop persist.sys.locale" = Except.error f)
    (hm : exec "getprop persist.sys.device" = Except.error f) :
    (get_brand exec = (Except.error (PyError.cmdFailure f),
        ["getprop persist.sys.romtype"]) ∧
      "getprop ro.product.manufacturer" ∉ (get_brand exec).2) ∧
    (get_locale exec = (Except.error (PyError.cmdFailure f),
        ["getprop persist.sys.locale"]) ∧
      "getprop ro.product.locale" ∉ (get_locale exec).2) ∧
    (get_device_model exec = (Except.error (PyError.cmdFailure f),
        ["getprop persist.sys.device"]) ∧
      "getprop ro.product.model" ∉ (get_device_model exec).2) := by
  have hb' : get_brand exec = (Except.error (PyError.cmdFailure f),
      ["getprop persist.sys.romtype"]) := by
    unfold get_brand orChain
    rw [hb]
  have hl' : get_locale exec = (Except.error (PyError.cmdFailure f),
      ["getprop persist.sys.locale"]) := by
    unfold get_locale orChain
    rw [hl]
  have hm' : get_device_model exec = (Except.error (PyError.cmdFailure f),
      ["getprop persist.sys.device"]) := by
    unfold get_device_model orChain
    rw [hm]
  rw [hb', hl', hm']
  exact ⟨⟨rfl,
      (by decide : "getprop ro.product.manufacturer" ∉ ["getprop persist.sys.romtype"])⟩,
    ⟨rfl, (by decide : "getprop ro.product.locale" ∉ ["getprop persist.sys.locale"])⟩,
    ⟨rfl, (by decide : "getprop ro.product.model" ∉ ["getprop persist.sys.device"])⟩⟩

/-- Claim C4 amended witness: the everywhere-failing executor realises the
hypotheses. -/
theorem claim_C4_witness :
    (get_brand failAllExec =
      (Except.error (PyError.cmdFailure ⟨"device unreachable"⟩),
        ["getprop persist.sys.romtype"]) ∧
      "getprop ro.product.manufacturer" ∉ (get_brand failAllExec).2) ∧
    (get_locale failAllExec =
      (Except.error (PyError.cmdFailure ⟨"device unreachable"⟩),
        ["getprop persist.sys.locale"]) ∧
      "getprop ro.product.locale" ∉ (get_locale failAllExec).2) ∧
    (get_device_model failAllExec =
      (Except.error (PyError.cmdFailure ⟨"device unreachable"⟩),
        ["getprop persist.sys.device"]) ∧
      "getprop ro.product.model" ∉ (get_device_model failAllExec).2) :=
  claim_C4_amended failAllExec ⟨"device unreachable"⟩ (by decide) (by decide)
    (by decide)

/-- Claim C3 counterexample: on output the pattern does not match (the
`re.search` model returns `none`), `is_ime_active` raises `AttributeError`
(`.group` on `None`) instead of yielding a no-match value. -/
theorem claim_C3_counterexample :
    reSearch matchImeAt "".data = none ∧
    is_ime_active (execOf "") = Except.error PyError.attributeError ∧
    is_ime_active (execOf "") ≠ Except.ok true ∧
    is_ime_active (execOf "") ≠ Except.ok false := by
  decide

/-- Claim C3 amended: when the pattern of `is_ime_active`,
`get_screen_timeout`, `get_bluetooth_name` or `get_max_volume_level` does not
match the command output (here: the output lacks the pattern's literal),
`re.search` itself signals no match with `None`, and the accessor then raises
`AttributeError` rather than returning a no-match value. -/
theorem claim_C3_amended (out : String) :
    (hasSub "mInputShown=".data out.data = false →
      reSearch matchImeAt out.data = none ∧
      is_ime_active (execOf out) = Except.error PyError.attributeError) ∧
    (hasSub "mScreenOffTimeoutSetting=".data out.data = false →
      reSearch matchTimeoutAt out.data = none ∧
      get_screen_timeout (execOf out) = Except.error PyError.attributeError) ∧
    (hasSub "name: ".data out.data = false →
      reSearch matchBtNameAt out.data = none ∧
      get_bluetooth_name (execOf out) = Except.error PyError.attributeError) ∧
    (hasSub "Max:".data out.data = false →
      reSearch matchMaxAt out.data = none ∧
      get_max_volume_level (execOf out) = Except.error PyError.attributeError) := by
  refine ⟨fun h => ?_, fun h => ?_, fun h => ?_, fun h => ?_⟩
  · have hn := reSearch_none_of_no_lit matchImeAt _ matchImeAt_startsWith out.data h
    exact ⟨hn, by simp [is_ime_active, execOf, hn]⟩
  · have hn := reSearch_none_of_no_lit matchTimeoutAt _ matchTimeoutAt_startsWith
      out.data h
    exact ⟨hn, by simp [get_screen_timeout, execOf, hn]⟩
  · have hn := reSearch_none_of_no_lit matchBtNameAt _ matchBtNameAt_startsWith
      out.data h
    exact ⟨hn, by simp [get_bluetooth_name, execOf, hn]⟩
  · have hn := reSearch_none_of_no_lit matchMaxAt _ matchMaxAt_startsWith out.data h
    exact ⟨hn, by simp [get_max_volume_level, execOf, hn]⟩

/-- Claim C3 amended witness: the output `no match here` contains none of the
four pattern literals, and all four accessors raise `AttributeError` on it. -/
theorem claim_C3_witness :
    (reSearch matchImeAt "no match here".data = none ∧
      is_ime_active (execOf "no match here") = Except.error PyError.attributeError) ∧
    (reSearch matchTimeoutAt "no match here".data = none ∧
      get_screen_timeout (execOf "no match here") =
        Except.error PyError.attributeError) ∧
    (reSearch matchBtNameAt "no match here".data = none ∧
      get_bluetooth_name (execOf "no match here") =
        Except.error PyError.attributeError) ∧
    (reSearch matchMaxAt "no match here".data = none ∧
      get_max_volume_level (execOf "no match here") =
        Except.error PyError.attributeError) :=
  ⟨(claim_C3_amended "no match here").1 (by decide),
    (claim_C3_amended "no match here").2.1 (by decide),
    (claim_C3_amended "no match here").2.2.1 (by decide),
    (claim_C3_amended "no match here").2.2.2 (by decide)⟩

/-- Claim C5: when the whole output of `get_system_version` is not a
parseable base-10 integer, `int()` fails and the `ValueError` propagates to
the caller (there is no other strategy to fall back to); for
`get_screen_timeout` and `get_max_volume_level` the extracted substring is a
non-empty `[0-9]+` capture, so `int()` always succeeds on it and the accessor
returns that value — a present-but-unparseable capture cannot occur. -/
theorem claim_C5_integer_coercion (out : String) :
    (pyInt out = none →
      get_system_version (execOf out) = Except.error PyError.valueError) ∧
    (∀ g : String, reSearch matchTimeoutAt out.data = some g →
      ∃ n : Int, pyInt g = some n ∧
        get_screen_timeout (execOf out) = Except.ok n) ∧
    (∀ g : String, reSearch matchMaxAt out.data = some g →
      ∃ n : Int, pyInt g = some n ∧
        get_max_volume_level (execOf out) = Except.ok n) := by
  refine ⟨fun h => by simp [get_system_version, execOf, h], ?_, ?_⟩
  · intro g hg
    obtain ⟨i, hi⟩ := reSearch_some_drop _ _ _ hg
    obtain ⟨ds, hgds, hne, hdig⟩ := matchTimeoutAt_capture _ _ hi
    obtain ⟨n, hn⟩ := pyInt_digit_run ds hne hdig
    subst hgds
    exact ⟨Int.ofNat n, hn, by simp [get_screen_timeout, execOf, hg, hn]⟩
  · intro g hg
    obtain ⟨i, hi⟩ := reSearch_some_drop _ _ _ hg
    obtain ⟨ds, hgds, hne, hdig⟩ := matchMaxAt_capture _ _ hi
    obtain ⟨n, hn⟩ := pyInt_digit_run ds hne hdig
    subst hgds
    exact ⟨Int.ofNat n, hn, by simp [get_max_volume_level, execOf, hg, hn]⟩

/-- Claim C5 witness: `N/A` is not parseable so `get_system_version`
propagates `ValueError`; digit captures parse for the other two accessors. -/
theorem claim_C5_witness :
    get_system_version (execOf "N/A") = Except.error PyError.valueError ∧
    (∃ n : Int, pyInt "30000" = some n ∧
      get_screen_timeout (execOf "mScreenOffTimeoutSetting=30000") =
        Except.ok n) ∧
    (∃ n : Int, pyInt "15" = some n ∧
      get_max_volume_level (execOf "Max: 15\n") = Except.ok n) :=
  ⟨(claim_C5_integer_coercion "N/A").1 (by decide),
    (claim_C5_integer_coercion "mScreenOffTimeoutSetting=30000").2.1 "30000"
      (by decide),
    (claim_C5_integer_coercion "Max: 15\n").2.2 "15" (by decide)⟩

/-- Claim C6: `bluetooth_on` is true exactly on the token `1`: output `1`
gives `true`, output `10` (a superstring, parsed as the integer ten) gives
`false`. -/
theorem claim_C6_exact_boolean_literal :
    bluetooth_on (execOf "1") = Except.ok true ∧
    bluetooth_on (execOf "10") = Except.ok false := by
  decide

/-- Claim C7 counterexample: the output `Max: 7\nMax: 15\n` contains the line
`Max: 15` followed by a newline, yet `get_max_volume_level` returns 7 — the
leftmost `Max:` line wins, so containment of a `Max: 15` line does not force
the result 15. -/
theorem claim_C7_counterexample :
    hasSub "Max: 15\n".data "Max: 7\nMax: 15\n".data = true ∧
    get_max_volume_level (execOf "Max: 7\nMax: 15\n") = Except.ok 7 ∧
    get_max_volume_level (execOf "Max: 7\nMax: 15\n") ≠ Except.ok 15 := by
  decide

/-- Claim C7 amended: on the output `Max: 15\n` (whose leftmost `Max:` match
captures 15) the accessor yields exactly 15; on every output with no `Max:`
occurrence the extraction yields no match (`re.search` returns `None`), and
the accessor then raises `AttributeError` rather than producing a value. -/
theorem claim_C7_amended :
    get_max_volume_level (execOf "Max: 15\n") = Except.ok 15 ∧
    ∀ out : String, hasSub "Max:".data out.data = false →
      reSearch matchMaxAt out.data = none ∧
      get_max_volume_level (execOf out) = Except.error PyError.attributeError := by
  refine ⟨by decide, fun out h => ?_⟩
  have hn := reSearch_none_of_no_lit matchMaxAt _ matchMaxAt_startsWith out.data h
  exact ⟨hn, by simp [get_max_volume_level, execOf, hn]⟩

/-- Claim C7 amended witness: a volume dump with no `Max:` line. -/
theorem claim_C7_witness :
    reSearch matchMaxAt "volume steps info".data = none ∧
    get_max_volume_level (execOf "volume steps info") =
      Except.error PyError.attributeError :=
  claim_C7_amended.2 "volume steps info" (by decide)

/-- Claim C8 counterexample: the output
`wifiNetworkKey="xyz" networkId="abc123"` contains `networkId="abc123"`, yet
`get_current_ssid` returns `xyz` — the leftmost key match wins, so
containment of `networkId="abc123"` does not force the result `abc123`. -/
theorem claim_C8_counterexample :
    hasSub "networkId=\"abc123\"".data
      "wifiNetworkKey=\"xyz\" networkId=\"abc123\"".data = true ∧
    get_current_ssid (execOf "wifiNetworkKey=\"xyz\" networkId=\"abc123\"") =
      Except.ok (some "xyz") ∧
    get_current_ssid (execOf "wifiNetworkKey=\"xyz\" networkId=\"abc123\"") ≠
      Except.ok (some "abc123") := by
  decide

/-- Claim C8 amended: on the output `networkId="abc123"` (whose leftmost key
match has quoted value `abc123`) the accessor returns `abc123` via the second
capture group; on every output containing neither key it returns `None`; and
on any successful command execution it never raises. -/
theorem claim_C8_amended :
    get_current_ssid (execOf "networkId=\"abc123\"") =
      Except.ok (some "abc123") ∧
    (∀ out : String, hasSub "networkId".data out.data = false →
      hasSub "wifiNetworkKey".data out.data = false →
      get_current_ssid (execOf out) = Except.ok none) ∧
    (∀ out : String, ∃ r : Option String,
      get_current_ssid (execOf out) = Except.ok r) := by
  refine ⟨by decide, fun out h1 h2 => ?_, fun out => ?_⟩
  · have hn := reSearch_none_of_no_lit_pair matchSsidAt _ _ matchSsidAt_startsWith
      out.data h1 h2
    simp [get_current_ssid, execOf, hn]
  · cases hr : reSearch matchSsidAt out.data with
    | none => exact ⟨none, by simp [get_current_ssid, execOf, hr]⟩
    | some g => exact ⟨some (String.mk g), by simp [get_current_ssid, execOf, hr]⟩

/-- Claim C8 amended witness: a netstats line with neither key returns
`None` without raising. -/
theorem claim_C8_witness :
    get_current_ssid (execOf "iface=wlan0 idle") = Except.ok none :=
  claim_C8_amended.2.1 "iface=wlan0 idle" (by decide) (by decide)

/-- Claim C9: `bluetooth_on` coerces the raw output with `int()` before the
equality test, so on the non-integer output `null` it raises `ValueError`
instead of returning `false` — the accessor is not total over raw output. -/
theorem claim_C9_bluetooth_on_not_total :
    pyInt "null" = none ∧
    bluetooth_on (execOf "null") = Except.error PyError.valueError ∧
    bluetooth_on (execOf "null") ≠ Except.ok false := by
  decide

/-- Claim C10: `get_window_size` is decided by the adb rotation alone —
rotation 0 yields the collaborator's raw `_raw_window_size()`, any non-zero
rotation yields the rotation-adjusted `window_size()`, and the result never
depends on the shell executor (no text is parsed). -/
theorem claim_C10_window_size_by_rotation (e e' : Exec) (adb : AdbDevice) :
    (adb.rotation = 0 → get_window_size ⟨e, adb⟩ = adb.raw_window_size) ∧
    (adb.rotation ≠ 0 → get_window_size ⟨e, adb⟩ = adb.window_size) ∧
    get_window_size ⟨e, adb⟩ = get_window_size ⟨e', adb⟩ := by
  unfold get_window_size
  exact ⟨fun h => by simp [h], fun h => by simp [h], rfl⟩

/-- Claim C10 witness: concrete devices at rotation 0 and rotation 1. -/
theorem claim_C10_witness :
    get_window_size ⟨execOf "", ⟨0, ⟨1080, 1920⟩, ⟨1920, 1080⟩⟩⟩ = ⟨1080, 1920⟩ ∧
    get_window_size ⟨execOf "", ⟨1, ⟨1080, 1920⟩, ⟨1920, 1080⟩⟩⟩ = ⟨1920, 1080⟩ :=
  ⟨(claim_C10_window_size_by_rotation (execOf "") (execOf "")
      ⟨0, ⟨1080, 1920⟩, ⟨1920, 1080⟩⟩).1 rfl,
    (claim_C10_window_size_by_rotation (execOf "") (execOf "")
      ⟨1, ⟨1080, 1920⟩, ⟨1920, 1080⟩⟩).2.1 (by decide)⟩

end Sodium
